import Mathlib

/-!
Shallow embedding of the `usb2` crate's control-request parser and
descriptor encoders, together with theorems checking the repository's
natural-language specification against the code.

Machine integers (`u8`, `u16`) are embedded as `Nat`; every cast in the
Rust source (`as u8`, `as u16`) is made explicit with `% 256` / `% 65536`
or the corresponding mask, and fallible functions returning
`Result<T, ()>` are embedded as `Except Unit T`.
-/

set_option maxHeartbeats 1000000

deriving instance DecidableEq for Except

namespace Usb2

/-! ## `src/bmrequesttype.rs` -/

namespace bmrequesttype

/-- Request direction (bit 7 of `bmRequestType`). -/
inductive Direction
  /-- Host to device -/
  | HostToDevice
  /-- Device to host -/
  | DeviceToHost
deriving DecidableEq, Repr, Fintype

/-- Discriminant of `Direction`, as in the Rust `repr!` macro. -/
def Direction.toVal : Direction → Nat
  | .HostToDevice => 0
  | .DeviceToHost => 1

/-- `Direction::_from` generated by the `repr!` macro. -/
def Direction._from (val : Nat) : Option Direction :=
  if val = 0 then some .HostToDevice
  else if val = 1 then some .DeviceToHost
  else none

/-- Request type (bits 6-5 of `bmRequestType`); named `Ty` because `Type`
is reserved in Lean. -/
inductive Ty
  /-- Standard request -/
  | Standard
  /-- Class-specific request -/
  | Class
  /-- Vendor-specific request -/
  | Vendor
deriving DecidableEq, Repr, Fintype

/-- Discriminant of `Ty`. -/
def Ty.toVal : Ty → Nat
  | .Standard => 0
  | .Class => 1
  | .Vendor => 2

/-- `Type::_from` generated by the `repr!` macro. -/
def Ty._from (val : Nat) : Option Ty :=
  if val = 0 then some .Standard
  else if val = 1 then some .Class
  else if val = 2 then some .Vendor
  else none

/-- Request recipient (bits 3-0 of `bmRequestType`). -/
inductive Recipient
  /-- The device -/
  | Device
  /-- An interface -/
  | Interface
  /-- An endpoint -/
  | Endpoint
  /-- Other -/
  | Other
deriving DecidableEq, Repr, Fintype

/-- Discriminant of `Recipient`. -/
def Recipient.toVal : Recipient → Nat
  | .Device => 0
  | .Interface => 1
  | .Endpoint => 2
  | .Other => 3

/-- `Recipient::_from` generated by the `repr!` macro. -/
def Recipient._from (val : Nat) : Option Recipient :=
  if val = 0 then some .Device
  else if val = 1 then some .Interface
  else if val = 2 then some .Endpoint
  else if val = 3 then some .Other
  else none

end bmrequesttype

/-- Decoded `bmRequestType` byte (section 9.3 of USB2). -/
structure bmRequestType where
  /-- Transfer direction -/
  direction : bmrequesttype.Direction
  /-- Request type -/
  ty : bmrequesttype.Ty
  /-- Request recipient -/
  recipient : bmrequesttype.Recipient
deriving DecidableEq, Repr, Fintype

/-- `bmRequestType::parse` from `src/bmrequesttype.rs`. -/
def bmRequestType.parse (b : Nat) : Except Unit bmRequestType :=
  match bmrequesttype.Direction._from (b >>> 7) with
  | none => .error ()
  | some direction =>
    match bmrequesttype.Ty._from ((b >>> 5) &&& 0b11) with
    | none => .error ()
    | some ty =>
      match bmrequesttype.Recipient._from (b &&& 0b1111) with
      | none => .error ()
      | some recipient => .ok ⟨direction, ty, recipient⟩

/-! ## Endpoint addresses (`src/lib.rs`) -/

/-- Direction from the point of view of the host (`lib.rs`). -/
inductive Direction
  /-- Host to Device -/
  | Out
  /-- Device to Host -/
  | In
deriving DecidableEq, Repr, Fintype

/-- Discriminant of `Direction` (`Out = 0`, `In = 1`). -/
def Direction.toVal : Direction → Nat
  | .Out => 0
  | .In => 1

/-- Endpoint address (`lib.rs`). -/
structure Endpoint where
  /-- Endpoint direction -/
  direction : Direction
  /-- Endpoint number -/
  number : Nat
deriving DecidableEq, Repr

/-- `Endpoint::byte` from `lib.rs`: direction in bit 7, number in bits 3-0. -/
def Endpoint.byte (e : Endpoint) : Nat :=
  (e.number &&& 0b1111) ||| (e.direction.toVal <<< 7)

/-- `windex2endpoint` from `lib.rs`. -/
def windex2endpoint (windex : Nat) : Except Unit Endpoint :=
  if windex >>> 8 ≠ 0 then .error ()
  else
    let w8 := windex % 256
    let direction := w8 >>> 4
    if direction = 0b0000 then .ok ⟨.Out, w8 &&& 0b1111⟩
    else if direction = 0b1000 then .ok ⟨.In, w8 &&& 0b1111⟩
    else .error ()

/-- `windex2interface` from `lib.rs`. -/
def windex2interface (windex : Nat) : Except Unit Nat :=
  if windex >>> 8 ≠ 0 then .error ()
  else .ok (windex % 256)

/-- `NonZeroU8::new` applied to an already-reduced byte value: `None` for
zero, `Some` otherwise. -/
def NonZeroU8.new (n : Nat) : Option Nat :=
  if n = 0 then none else some n

/-! ## `src/desc.rs` -/

namespace desc

/-- Descriptor types (`desc.rs`); named `Ty` because `Type` is reserved. -/
inductive Ty
  /-- Device descriptor type -/
  | Device
  /-- Configuration descriptor type -/
  | Configuration
  /-- String descriptor type -/
  | String
  /-- Interface descriptor type -/
  | Interface
  /-- Endpoint descriptor type -/
  | Endpoint
  /-- Device qualifier descriptor type -/
  | DeviceQualifier
  /-- Other speed configuration descriptor type -/
  | OtherSpeedConfiguration
  /-- Interface power descriptor type -/
  | InterfacePower
deriving DecidableEq, Repr, Fintype

/-- Discriminant of `desc::Type` (`Device = 1`, ..., `InterfacePower = 8`). -/
def Ty.toVal : Ty → Nat
  | .Device => 1
  | .Configuration => 2
  | .String => 3
  | .Interface => 4
  | .Endpoint => 5
  | .DeviceQualifier => 6
  | .OtherSpeedConfiguration => 7
  | .InterfacePower => 8

/-- `desc::Type::_from` generated by the `repr!` macro. -/
def Ty._from (val : Nat) : Option Ty :=
  if val = 1 then some .Device
  else if val = 2 then some .Configuration
  else if val = 3 then some .String
  else if val = 4 then some .Interface
  else if val = 5 then some .Endpoint
  else if val = 6 then some .DeviceQualifier
  else if val = 7 then some .OtherSpeedConfiguration
  else if val = 8 then some .InterfacePower
  else none

end desc

/-! ## `mod brequest` and `mod feature` constants

`lib.rs` declares `mod brequest;` and `mod feature;` but those two files
are not present in the repository snapshot; only their uses remain. -/

/-- Modelled from the spec: `mod brequest` (declared in `lib.rs` but its
file is missing) holds the standard bRequest codes of USB2 table 9-4; the
spec's concrete examples pin `SET_ADDRESS = 0x05`, `GET_DESCRIPTOR = 0x06`
and `SET_CONFIGURATION = 0x09`, and the remaining codes are the USB2
values the code's table (comment "See table 9-3 of (USB2)") refers to. -/
def GET_STATUS : Nat := 0

/-- Modelled from the spec: USB2 standard bRequest code (see `GET_STATUS`). -/
def CLEAR_FEATURE : Nat := 1

/-- Modelled from the spec: USB2 standard bRequest code (see `GET_STATUS`). -/
def SET_FEATURE : Nat := 3

/-- Modelled from the spec: USB2 standard bRequest code (see `GET_STATUS`). -/
def SET_ADDRESS : Nat := 5

/-- Modelled from the spec: USB2 standard bRequest code (see `GET_STATUS`). -/
def GET_DESCRIPTOR : Nat := 6

/-- Modelled from the spec: USB2 standard bRequest code (see `GET_STATUS`). -/
def SET_DESCRIPTOR : Nat := 7

/-- Modelled from the spec: USB2 standard bRequest code (see `GET_STATUS`). -/
def GET_CONFIGURATION : Nat := 8

/-- Modelled from the spec: USB2 standard bRequest code (see `GET_STATUS`). -/
def SET_CONFIGURATION : Nat := 9

/-- Modelled from the spec: USB2 standard bRequest code (see `GET_STATUS`). -/
def GET_INTERFACE : Nat := 10

/-- Modelled from the spec: USB2 standard bRequest code (see `GET_STATUS`). -/
def SET_INTERFACE : Nat := 11

/-- Modelled from the spec: USB2 standard bRequest code (see `GET_STATUS`). -/
def SYNCH_FRAME : Nat := 12

namespace feature

/-- Modelled from the spec: `mod feature` (declared in `lib.rs` but its
file is missing) holds the feature selectors of USB2 table 9-6:
`ENDPOINT_HALT = 0`, `DEVICE_REMOTE_WAKEUP = 1`, `TEST_MODE = 2`; the
spec names the same three selectors with the same recipient constraints. -/
def ENDPOINT_HALT : Nat := 0

/-- Modelled from the spec: USB2 feature selector (see `ENDPOINT_HALT`). -/
def DEVICE_REMOTE_WAKEUP : Nat := 1

/-- Modelled from the spec: USB2 feature selector (see `ENDPOINT_HALT`). -/
def TEST_MODE : Nat := 2

end feature

/-! ## Standard requests (`src/lib.rs`) -/

/-- Test selector (`repr!` enum `Test` in `lib.rs`). -/
inductive Test
  /-- Test_J -/
  | J
  /-- Test_K -/
  | K
  /-- Test_SE0_NAK -/
  | SE0_NAK
  /-- Test_Packet -/
  | Packet
  /-- Test_Force_Enable -/
  | ForceEnable
deriving DecidableEq, Repr, Fintype

/-- `Test::_from` generated by the `repr!` macro (`J = 1` .. `ForceEnable = 5`). -/
def Test._from (val : Nat) : Option Test :=
  if val = 1 then some .J
  else if val = 2 then some .K
  else if val = 3 then some .SE0_NAK
  else if val = 4 then some .Packet
  else if val = 5 then some .ForceEnable
  else none

/-- CLEAR_FEATURE feature selector (`lib.rs`). -/
inductive ClearFeature
  /-- Disables the device remote wake-up feature -/
  | DeviceRemoteWakeup
  /-- Unhalts the specified endpoint -/
  | EndpointHalt (endpoint : Endpoint)
deriving DecidableEq, Repr

/-- Argument of the GET_STATUS request (`lib.rs`). -/
inductive GetStatus
  /-- Device status -/
  | Device
  /-- Endpoint status -/
  | Endpoint (endpoint : Usb2.Endpoint)
  /-- Interface status -/
  | Interface (interface : Nat)
deriving DecidableEq, Repr

/-- SET_FEATURE feature selector (`lib.rs`). -/
inductive SetFeature
  /-- Enables the device remote wake-up feature -/
  | DeviceRemoteWakeup
  /-- Halts the specified endpoint -/
  | EndpointHalt (endpoint : Endpoint)
  /-- Enables the specified test mode -/
  | TestMode (test : Test)
deriving DecidableEq, Repr

/-- GET_DESCRIPTOR descriptor argument (`lib.rs`). -/
inductive GetDescriptor
  /-- Configuration descriptor -/
  | Configuration (index : Nat)
  /-- Device descriptor -/
  | Device
  /-- Device qualifier descriptor -/
  | DeviceQualifier
  /-- Other speed configuration descriptor -/
  | OtherSpeedConfiguration (index : Nat)
  /-- String descriptor -/
  | String (index : Nat) (lang_id : Nat)
deriving DecidableEq, Repr

/-- SET_DESCRIPTOR descriptor argument (`lib.rs`). -/
inductive SetDescriptor
  /-- Configuration descriptor -/
  | Configuration (index : Nat)
  /-- Device descriptor -/
  | Device
  /-- String descriptor -/
  | String (index : Nat) (lang_id : Nat)
deriving DecidableEq, Repr

/-- `MAX_ADDRESS` from `lib.rs`. -/
def MAX_ADDRESS : Nat := 127

/-- Standard device requests (`lib.rs`). -/
inductive StandardRequest
  /-- CLEAR_FEATURE -/
  | ClearFeature (feature : Usb2.ClearFeature)
  /-- GET_CONFIGURATION -/
  | GetConfiguration
  /-- GET_DESCRIPTOR -/
  | GetDescriptor (descriptor : Usb2.GetDescriptor) (length : Nat)
  /-- GET_INTERFACE -/
  | GetInterface (interface : Nat)
  /-- GET_STATUS -/
  | GetStatus (status : Usb2.GetStatus)
  /-- SET_ADDRESS; `none` is used to return to the `Default` state -/
  | SetAddress (address : Option Nat)
  /-- SET_CONFIGURATION; `none` is used to return to the `Address` state -/
  | SetConfiguration (value : Option Nat)
  /-- SET_DESCRIPTOR -/
  | SetDescriptor (descriptor : Usb2.SetDescriptor) (length : Nat)
  /-- SET_FEATURE -/
  | SetFeature (feature : Usb2.SetFeature)
  /-- SET_INTERFACE -/
  | SetInterface (interface : Nat) (alternate : Nat)
  /-- SYNCH_FRAME -/
  | SynchFrame (endpoint : Endpoint)
deriving DecidableEq, Repr

/-- `StandardRequest::parse2` from `lib.rs`. The Rust `match` on
`(brequest, direction)` with arm guards is rendered as an `if` chain in
arm order; each `(brequest, direction)` pair appears in at most one arm,
so a failed guard falls through to the final wildcard arm, exactly as in
the source. -/
def StandardRequest.parse2 (t : bmRequestType) (brequest wvalue windex wlength : Nat) :
    Except Unit StandardRequest :=
  -- see section 9.4.1 of (USB2)
  if brequest = CLEAR_FEATURE ∧ t.direction = .HostToDevice ∧
      t.recipient ≠ .Other ∧ wlength = 0 then
    if wvalue = feature.DEVICE_REMOTE_WAKEUP ∧ t.recipient = .Device ∧ windex = 0 then
      .ok (.ClearFeature .DeviceRemoteWakeup)
    else if wvalue = feature.ENDPOINT_HALT ∧ t.recipient = .Endpoint then
      (windex2endpoint windex).map fun e => .ClearFeature (.EndpointHalt e)
    else
      .error ()
  -- see section 9.4.2 of (USB2)
  else if brequest = GET_CONFIGURATION ∧ t.direction = .DeviceToHost ∧
      t.recipient = .Device ∧ wvalue = 0 ∧ windex = 0 ∧ wlength = 1 then
    .ok .GetConfiguration
  -- see section 9.4.3 of (USB2)
  else if brequest = GET_DESCRIPTOR ∧ t.direction = .DeviceToHost ∧
      t.recipient = .Device then
    let desc_ty := (wvalue >>> 8) % 256
    let desc_idx := wvalue % 256
    match desc.Ty._from desc_ty with
    | none => .error ()
    | some ty =>
      if ty = .Device ∧ desc_idx = 0 ∧ windex = 0 then
        .ok (.GetDescriptor .Device wlength)
      else if ty = .DeviceQualifier ∧ desc_idx = 0 ∧ windex = 0 then
        .ok (.GetDescriptor .DeviceQualifier wlength)
      else if ty = .Configuration ∧ windex = 0 then
        .ok (.GetDescriptor (.Configuration desc_idx) wlength)
      else if ty = .OtherSpeedConfiguration ∧ windex = 0 then
        .ok (.GetDescriptor (.OtherSpeedConfiguration desc_idx) wlength)
      else if ty = .String then
        .ok (.GetDescriptor (.String desc_idx windex) wlength)
      else
        -- other types cannot appear in a GET_DESCRIPTOR request
        .error ()
  -- see section 9.4.4 of (USB2)
  else if brequest = GET_INTERFACE ∧ t.direction = .DeviceToHost ∧
      t.recipient = .Interface ∧ wvalue = 0 ∧ wlength = 1 then
    (windex2interface windex).map fun i => .GetInterface i
  -- see section 9.4.5 of (USB2)
  else if brequest = GET_STATUS ∧ t.direction = .DeviceToHost ∧
      wvalue = 0 ∧ wlength = 2 then
    if t.recipient = .Device ∧ windex = 0 then
      .ok (.GetStatus .Device)
    else if t.recipient = .Endpoint then
      (windex2endpoint windex).map fun e => .GetStatus (.Endpoint e)
    else if t.recipient = .Interface then
      (windex2interface windex).map fun i => .GetStatus (.Interface i)
    else
      .error ()
  -- see section 9.4.6 of (USB2)
  else if brequest = SET_ADDRESS ∧ t.direction = .HostToDevice ∧
      t.recipient = .Device ∧ windex = 0 ∧ wlength = 0 ∧ wvalue ≤ MAX_ADDRESS then
    .ok (.SetAddress (NonZeroU8.new (wvalue % 256)))
  -- see section 9.4.7 of (USB2)
  else if brequest = SET_CONFIGURATION ∧ t.direction = .HostToDevice ∧
      t.recipient = .Device ∧ windex = 0 ∧ wlength = 0 ∧ wvalue >>> 8 = 0 then
    .ok (.SetConfiguration (NonZeroU8.new (wvalue % 256)))
  -- see section 9.4.8 of (USB2)
  else if brequest = SET_DESCRIPTOR ∧ t.direction = .HostToDevice ∧
      t.recipient = .Device then
    let desc_ty := (wvalue >>> 8) % 256
    let desc_idx := wvalue % 256
    match desc.Ty._from desc_ty with
    | none => .error ()
    | some ty =>
      if ty = .Device ∧ desc_idx = 0 ∧ windex = 0 then
        .ok (.SetDescriptor .Device wlength)
      else if ty = .Configuration ∧ windex = 0 then
        .ok (.SetDescriptor (.Configuration desc_idx) wlength)
      else if ty = .String then
        .ok (.SetDescriptor (.String desc_idx windex) wlength)
      else
        -- other types cannot appear in a SET_DESCRIPTOR request
        .error ()
  else if brequest = SET_FEATURE ∧ t.direction = .HostToDevice ∧ wlength = 0 then
    if wvalue = feature.DEVICE_REMOTE_WAKEUP ∧ t.recipient = .Device ∧ windex = 0 then
      .ok (.SetFeature .DeviceRemoteWakeup)
    else if wvalue = feature.TEST_MODE ∧ t.recipient = .Device ∧ windex % 256 = 0 then
      match Test._from ((windex >>> 8) % 256) with
      | none => .error ()
      | some test => .ok (.SetFeature (.TestMode test))
    else if wvalue = feature.ENDPOINT_HALT ∧ t.recipient = .Endpoint then
      (windex2endpoint windex).map fun e => .SetFeature (.EndpointHalt e)
    else
      .error ()
  else if brequest = SET_INTERFACE ∧ t.direction = .HostToDevice ∧
      t.recipient = .Interface ∧ wlength = 0 then
    match windex2interface windex with
    | .error _ => .error ()
    | .ok interface =>
      match windex2interface wvalue with
      | .error _ => .error ()
      | .ok alternate => .ok (.SetInterface interface alternate)
  else if brequest = SYNCH_FRAME ∧ t.direction = .DeviceToHost ∧
      t.recipient = .Endpoint ∧ wvalue = 0 ∧ wlength = 2 then
    (windex2endpoint windex).map fun e => .SynchFrame e
  else
    .error ()

/-- The `(bRequest, direction)` pair that keys the grammar rule producing
each `StandardRequest` constructor, read off the arms of
`StandardRequest::parse2` (each pair keys exactly one arm). -/
def StandardRequest.ruleKey : StandardRequest → Nat × bmrequesttype.Direction
  | .ClearFeature _ => (CLEAR_FEATURE, .HostToDevice)
  | .GetConfiguration => (GET_CONFIGURATION, .DeviceToHost)
  | .GetDescriptor _ _ => (GET_DESCRIPTOR, .DeviceToHost)
  | .GetInterface _ => (GET_INTERFACE, .DeviceToHost)
  | .GetStatus _ => (GET_STATUS, .DeviceToHost)
  | .SetAddress _ => (SET_ADDRESS, .HostToDevice)
  | .SetConfiguration _ => (SET_CONFIGURATION, .HostToDevice)
  | .SetDescriptor _ _ => (SET_DESCRIPTOR, .HostToDevice)
  | .SetFeature _ => (SET_FEATURE, .HostToDevice)
  | .SetInterface _ _ => (SET_INTERFACE, .HostToDevice)
  | .SynchFrame _ => (SYNCH_FRAME, .DeviceToHost)

/-- `StandardRequest::parse` from `lib.rs`. -/
def StandardRequest.parse (bmrequesttype brequest wvalue windex wlength : Nat) :
    Except Unit StandardRequest :=
  match bmRequestType.parse bmrequesttype with
  | .error _ => .error ()
  | .ok t =>
    if t.ty ≠ .Standard then .error ()
    else StandardRequest.parse2 t brequest wvalue windex wlength

/-! ## `src/hid.rs` -/

namespace hid

/-- `DESC_TYPE_HID` from `hid.rs`. -/
def DESC_TYPE_HID : Nat := 0x21

/-- `DESC_TYPE_REPORT` from `hid.rs`. -/
def DESC_TYPE_REPORT : Nat := 0x22

/-- `SET_IDLE` bRequest code (local constant in `hid.rs`). -/
def SET_IDLE : Nat := 10

/-- `GET_DESCRIPTOR` bRequest code (local constant in `hid.rs`). -/
def GET_DESCRIPTOR : Nat := 6

/-- HID GET_DESCRIPTOR descriptor type (`hid.rs`). -/
inductive GetDescriptor
  /-- Report descriptor -/
  | Report (index : Nat)
deriving DecidableEq, Repr

/-- HID request kind (`hid.rs`). -/
inductive Kind
  /-- SET_IDLE; `none` duration means indefinite, `none` report id means all reports -/
  | SetIdle (duration : Option Nat) (report_id : Option Nat)
  /-- GET_DESCRIPTOR -/
  | GetDescriptor (length : Nat) (descriptor : hid.GetDescriptor)
deriving DecidableEq, Repr

/-- HID specific request (`hid.rs`). -/
structure Request where
  /-- Interface index -/
  interface : Nat
  /-- Kind of request -/
  kind : Kind
deriving DecidableEq, Repr

/-- `hid::Request::parse2` from `hid.rs`. -/
def Request.parse2 (t : bmRequestType) (brequest wvalue windex wlength : Nat) :
    Except Unit Request :=
  if brequest = SET_IDLE ∧ t.recipient = .Interface ∧
      t.direction = .HostToDevice ∧ wlength = 0 then
    let duration := NonZeroU8.new ((wvalue >>> 8) % 256)
    let report_id := NonZeroU8.new (wvalue % 256)
    (windex2interface windex).map fun interface =>
      ⟨interface, .SetIdle duration report_id⟩
  else if brequest = GET_DESCRIPTOR ∧ t.recipient = .Interface ∧
      t.direction = .DeviceToHost then
    let desc_ty := (wvalue >>> 8) % 256
    let index := wvalue % 256
    match windex2interface windex with
    | .error _ => .error ()
    | .ok interface =>
      if desc_ty = DESC_TYPE_REPORT then
        .ok ⟨interface, .GetDescriptor wlength (.Report index)⟩
      else
        .error ()
  else
    .error ()

end hid

/-! ## `src/cdc/acm.rs` -/

namespace acm

/-- `SET_LINE_CODING` from `acm.rs`. -/
def SET_LINE_CODING : Nat := 0x20

/-- `GET_LINE_CODING` from `acm.rs`. -/
def GET_LINE_CODING : Nat := 0x21

/-- `SET_CONTROL_LINE_STATE` from `acm.rs`. -/
def SET_CONTROL_LINE_STATE : Nat := 0x22

/-- ACM request kind (`acm.rs`). -/
inductive Kind
  /-- GET_LINE_CODING -/
  | GetLineCoding
  /-- SET_LINE_CODING -/
  | SetLineCoding
  /-- SET_CONTROL_LINE_STATE -/
  | SetControlLineState (dtr : Bool) (rts : Bool)
deriving DecidableEq, Repr

/-- ACM request (`acm.rs`). -/
structure Request where
  /-- Interface index -/
  interface : Nat
  /-- Kind of request -/
  kind : Kind
deriving DecidableEq, Repr

/-- `acm::Request::parse2` from `acm.rs`. `!0b11` on a `u16` is the mask
`0xFFFC`. -/
def Request.parse2 (t : bmRequestType) (brequest wvalue windex wlength : Nat) :
    Except Unit Request :=
  if brequest = SET_LINE_CODING ∧ t.direction = .HostToDevice ∧
      t.recipient = .Interface ∧ wvalue = 0 ∧ wlength = 7 then
    (windex2interface windex).map fun interface => ⟨interface, .SetLineCoding⟩
  else if brequest = GET_LINE_CODING ∧ t.direction = .DeviceToHost ∧
      t.recipient = .Interface ∧ wvalue = 0 ∧ wlength = 7 then
    (windex2interface windex).map fun interface => ⟨interface, .GetLineCoding⟩
  else if brequest = SET_CONTROL_LINE_STATE ∧ t.direction = .HostToDevice ∧
      t.recipient = .Interface ∧ wlength = 0 then
    match windex2interface windex with
    | .error _ => .error ()
    | .ok interface =>
      if wvalue &&& 0xFFFC ≠ 0 then .error ()
      else
        let dtr := wvalue &&& 1 ≠ 0
        let rts := wvalue &&& 2 ≠ 0
        .ok ⟨interface, .SetControlLineState (decide dtr) (decide rts)⟩
  else
    .error ()

end acm

/-! ## The dispatcher (`Request::parse` in `src/lib.rs`) -/

/-- Control endpoint requests (`lib.rs`). -/
inductive Request
  /-- Standard device request -/
  | Standard (request : StandardRequest)
  /-- CDC Abstract Control Model interface request -/
  | Acm (request : acm.Request)
  /-- Human Interface Device (HID) request -/
  | Hid (request : hid.Request)
deriving DecidableEq, Repr

/-- `Request::parse` from `lib.rs`: decode `bmRequestType`; for a
`Standard`-typed request try the standard grammar and fall back to the HID
grammar; for a `Class`-typed request try the ACM grammar and fall back to
the HID grammar; reject `Vendor`. -/
def Request.parse (bmrequesttype brequest wvalue windex wlength : Nat) :
    Except Unit Request :=
  match bmRequestType.parse bmrequesttype with
  | .error _ => .error ()
  | .ok t =>
    match t.ty with
    | .Standard =>
      match StandardRequest.parse2 t brequest wvalue windex wlength with
      | .ok s => .ok (.Standard s)
      | .error _ =>
        (hid.Request.parse2 t brequest wvalue windex wlength).map Request.Hid
    | .Class =>
      match acm.Request.parse2 t brequest wvalue windex wlength with
      | .ok a => .ok (.Acm a)
      | .error _ =>
        (hid.Request.parse2 t brequest wvalue windex wlength).map Request.Hid
    | .Vendor => .error ()

/-! ## `src/endpoint.rs` -/

namespace endpoint

/-- Transactions per microframe (`endpoint.rs`). -/
inductive Transactions
  /-- 1 transaction per microframe -/
  | one
  /-- 2 transactions per microframe -/
  | two
  /-- 3 transactions per microframe -/
  | three
deriving DecidableEq, Repr, Fintype

/-- Discriminant of `Transactions` (`_1 = 0b00`, `_2 = 0b01`, `_3 = 0b10`). -/
def Transactions.toVal : Transactions → Nat
  | .one => 0b00
  | .two => 0b01
  | .three => 0b10

/-- Synchronization type (`endpoint.rs`). -/
inductive SynchronizationType
  /-- No synchronization -/
  | NoSynchronization
  /-- Asynchronous -/
  | Asynchronous
  /-- Adaptive -/
  | Adaptive
  /-- Synchronous -/
  | Synchronous
deriving DecidableEq, Repr, Fintype

/-- Discriminant of `SynchronizationType`. -/
def SynchronizationType.toVal : SynchronizationType → Nat
  | .NoSynchronization => 0b00
  | .Asynchronous => 0b01
  | .Adaptive => 0b10
  | .Synchronous => 0b11

/-- Usage type (`endpoint.rs`). -/
inductive UsageType
  /-- Data endpoint -/
  | DataEndpoint
  /-- Feedback endpoint -/
  | FeedbackEndpoint
  /-- Implicit feedback data endpoint -/
  | ImplicitFeedbackDataEndpoint
deriving DecidableEq, Repr, Fintype

/-- Discriminant of `UsageType`. -/
def UsageType.toVal : UsageType → Nat
  | .DataEndpoint => 0b00
  | .FeedbackEndpoint => 0b01
  | .ImplicitFeedbackDataEndpoint => 0b10

/-- Endpoint type (`endpoint.rs`); named `Ty` because `Type` is reserved. -/
inductive Ty
  /-- Bulk endpoint -/
  | Bulk
  /-- Control endpoint -/
  | Control
  /-- Interrupt endpoint -/
  | Interrupt (transactions_per_microframe : Transactions)
  /-- Isochronous endpoint -/
  | Isochronous (synchronization_type : SynchronizationType)
      (usage_type : UsageType) (transactions_per_microframe : Transactions)
deriving DecidableEq, Repr

/-- `Type::bmAttributes` from `endpoint.rs`. -/
def Ty.bmAttributes : Ty → Nat
  | .Bulk => 0b10
  | .Control => 0b00
  | .Interrupt _ => 0b11
  | .Isochronous s u _ => 0b01 ||| (s.toVal <<< 2) ||| (u.toVal <<< 4)

/-- Endpoint descriptor (`endpoint.rs`). -/
structure Descriptor where
  /-- Endpoint address -/
  bEndpointAddress : Endpoint
  /-- Endpoint type -/
  ty : Ty
  /-- Maximum packet size (documented as "must be less than `1 << 11`") -/
  max_packet_size : Nat
  /-- Polling interval -/
  bInterval : Nat
deriving DecidableEq, Repr

/-- `Descriptor::SIZE` from `endpoint.rs`. -/
def Descriptor.SIZE : Nat := 7

/-- `Descriptor::bytes` from `endpoint.rs`: the packet-size word keeps
`max_packet_size & ((1 << 11) - 1)` and, for interrupt and isochronous
endpoints only, ORs the transactions-per-microframe bits into bits 11-12. -/
def Descriptor.bytes (d : Descriptor) : List Nat :=
  let word := d.max_packet_size &&& ((1 <<< 11) - 1)
  let word :=
    match d.ty with
    | .Interrupt tpm => word ||| (tpm.toVal <<< 11)
    | .Isochronous _ _ tpm => word ||| (tpm.toVal <<< 11)
    | _ => word
  [Descriptor.SIZE,
   desc.Ty.Endpoint.toVal,
   d.bEndpointAddress.byte,
   d.ty.bmAttributes,
   word % 256,
   (word >>> 8) % 256,
   d.bInterval]

end endpoint

/-- The transactions-per-microframe value a descriptor's packet-size word
carries: the enum value for interrupt and isochronous endpoints, 0 for
bulk and control endpoints. -/
def endpoint.Ty.transactionsVal : endpoint.Ty → Nat
  | .Interrupt tpm => tpm.toVal
  | .Isochronous _ _ tpm => tpm.toVal
  | .Bulk => 0
  | .Control => 0

/-! ## Helper lemmas -/

/-- `Except.map` returns `ok` exactly when its argument does. -/
theorem exceptMap_ok {α β : Type} {f : α → β} {x : Except Unit α} {b : β}
    (h : x.map f = .ok b) : ∃ a, x = .ok a ∧ f a = b := by
  cases x with
  | error e => simp [Except.map] at h
  | ok a => exact ⟨a, rfl, by simpa [Except.map] using h⟩

/-- Every `transactionsVal` is below 4 (it occupies bits 11-12). -/
theorem transactionsVal_lt_four (ty : endpoint.Ty) : ty.transactionsVal < 4 := by
  cases ty with
  | Interrupt tpm => cases tpm <;> decide
  | Isochronous s u tpm =>
    cases tpm <;> simp only [endpoint.Ty.transactionsVal, endpoint.Transactions.toVal] <;> omega
  | Bulk => decide
  | Control => decide

/-- ORing a value below `2^11` with a value shifted left by 11 bits is
addition. -/
theorem lor_shiftLeft_eleven {a : Nat} (t : Nat) (h : a < 2048) :
    a ||| (t <<< 11) = a + 2048 * t := by
  have h1 : t <<< 11 = 2 ^ 11 * t := by
    rw [Nat.shiftLeft_eq]; ring
  have h2 : 2 ^ 11 * t + a = 2 ^ 11 * t ||| a :=
    Nat.mul_add_lt_is_or (by simpa using h) t
  rw [h1, Nat.or_comm, ← h2]
  ring

/-! ## Theorems for the claims -/

/-- Claim C3: for every byte `b`, `bmRequestType::parse` succeeds iff
bits 6-5 of `b` are in `{0, 1, 2}` and bits 3-0 are in `{0, 1, 2, 3}`;
on success the direction equals bit 7 (0 = HostToDevice,
1 = DeviceToHost), the kind equals bits 6-5 and the recipient equals
bits 3-0. -/
theorem C3_request_type_byte :
    ∀ b, b < 256 →
      ((bmRequestType.parse b ≠ .error ()) ↔
        ((b >>> 5) &&& 3 < 3 ∧ b &&& 15 < 4)) ∧
      (∀ t, bmRequestType.parse b = .ok t →
        t.direction.toVal = b >>> 7 ∧ t.ty.toVal = (b >>> 5) &&& 3 ∧
          t.recipient.toVal = b &&& 15) := by
  set_option maxRecDepth 10000 in decide

/-- Witness for C3 at the concrete byte 129. -/
theorem C3_witness :
    bmRequestType.parse 129 ≠ .error () ∧
      ∀ t, bmRequestType.parse 129 = .ok t → t.direction.toVal = 129 >>> 7 :=
  ⟨(C3_request_type_byte 129 (by decide)).1.mpr (by decide),
   fun t ht => ((C3_request_type_byte 129 (by decide)).2 t ht).1⟩

/-- Claim C9: encoding an `Endpoint` whose number is in `0..=15` to its
wire byte and decoding that byte through `windex2endpoint` returns the
original `Endpoint`. -/
theorem C9_endpoint_roundtrip :
    ∀ (d : Direction), ∀ n, n < 16 →
      windex2endpoint (Endpoint.byte ⟨d, n⟩) = .ok ⟨d, n⟩ := by
  set_option maxRecDepth 10000 in decide

/-- Witness for C9 at the concrete endpoint `In 5`. -/
theorem C9_witness :
    windex2endpoint (Endpoint.byte ⟨.In, 5⟩) = .ok ⟨.In, 5⟩ :=
  C9_endpoint_roundtrip .In 5 (by decide)

/-- Claim C10: `endpoint::Descriptor::bytes` is total: for every
descriptor, including one whose `max_packet_size` is `2^11` or more, it
returns a 7-byte array whose little-endian packet-size word (bytes 4-5)
holds `max_packet_size % 2^11` in bits 0-10 — high bits are silently
discarded — and the transactions-per-microframe value (0 for bulk and
control endpoints) in bits 11-12. -/
theorem C10_endpoint_descriptor_bytes :
    (∀ (d : endpoint.Descriptor),
      d.bytes.length = 7 ∧
      d.bytes.getD 4 0 + 256 * d.bytes.getD 5 0 =
        d.max_packet_size % 2048 + 2048 * d.ty.transactionsVal ∧
      d.ty.transactionsVal < 4) ∧
    endpoint.Ty.transactionsVal .Bulk = 0 ∧
    endpoint.Ty.transactionsVal .Control = 0 := by
  refine ⟨?_, rfl, rfl⟩
  intro d
  obtain ⟨addr, ty, mps, iv⟩ := d
  have hmask : mps &&& (1 <<< 11 - 1) = mps % 2048 := by
    have := Nat.and_pow_two_sub_one_eq_mod mps 11
    norm_num at this ⊢
    exact this
  have hsplit : ∀ w : Nat, w < 65536 →
      w % 256 + 256 * ((w >>> 8) % 256) = w := by
    intro w hw
    have h8 : w >>> 8 = w / 256 := by
      simpa using Nat.shiftRight_eq_div_pow w 8
    have : w / 256 < 256 := by omega
    rw [h8, Nat.mod_eq_of_lt this]
    omega
  cases ty with
  | Bulk =>
    refine ⟨rfl, ?_, transactionsVal_lt_four _⟩
    simp only [endpoint.Descriptor.bytes, List.getD, endpoint.Ty.transactionsVal]
    rw [hmask]
    simpa using hsplit (mps % 2048) (by omega)
  | Control =>
    refine ⟨rfl, ?_, transactionsVal_lt_four _⟩
    simp only [endpoint.Descriptor.bytes, List.getD, endpoint.Ty.transactionsVal]
    rw [hmask]
    simpa using hsplit (mps % 2048) (by omega)
  | Interrupt tpm =>
    refine ⟨rfl, ?_, transactionsVal_lt_four _⟩
    simp only [endpoint.Descriptor.bytes, List.getD, endpoint.Ty.transactionsVal]
    rw [hmask, lor_shiftLeft_eleven tpm.toVal (by omega)]
    have htpm : tpm.toVal < 4 := by cases tpm <;> decide
    simpa using hsplit (mps % 2048 + 2048 * tpm.toVal) (by omega)
  | Isochronous s u tpm =>
    refine ⟨rfl, ?_, transactionsVal_lt_four _⟩
    simp only [endpoint.Descriptor.bytes, List.getD, endpoint.Ty.transactionsVal]
    rw [hmask, lor_shiftLeft_eleven tpm.toVal (by omega)]
    have htpm : tpm.toVal < 4 := by cases tpm <;> decide
    simpa using hsplit (mps % 2048 + 2048 * tpm.toVal) (by omega)

/-- Claim C4: decoding a `u16` as an endpoint index succeeds iff its
high byte is 0 and bits 7-4 of its low byte are exactly 0 (direction Out)
or 8 (direction In), with the endpoint number taken from bits 3-0;
concretely `0x0080` decodes to `In 0`, `0x0000` to `Out 0`, and `0x0010`
and `0x0090` both fail. -/
theorem C4_endpoint_index :
    (∀ w, w < 65536 →
      ((windex2endpoint w ≠ .error ()) ↔
        (w / 256 = 0 ∧ ((w % 256) / 16 = 0 ∨ (w % 256) / 16 = 8))) ∧
      (∀ e, windex2endpoint w = .ok e →
        e.number = w % 16 ∧
          (e.direction = .Out ↔ (w % 256) / 16 = 0) ∧
          (e.direction = .In ↔ (w % 256) / 16 = 8))) ∧
    windex2endpoint 0x0080 = .ok ⟨.In, 0⟩ ∧
    windex2endpoint 0x0000 = .ok ⟨.Out, 0⟩ ∧
    windex2endpoint 0x0010 = .error () ∧
    windex2endpoint 0x0090 = .error () := by
  refine ⟨?_, by decide, by decide, by decide, by decide⟩
  intro w hw
  have h8 : w >>> 8 = w / 256 := by
    simpa using Nat.shiftRight_eq_div_pow w 8
  have h4 : (w % 256) >>> 4 = (w % 256) / 16 := by
    simpa using Nat.shiftRight_eq_div_pow (w % 256) 4
  have h15 : (w % 256) &&& 15 = w % 16 := by
    have h := Nat.and_pow_two_sub_one_eq_mod (w % 256) 4
    norm_num at h
    simpa using h
  constructor
  · simp only [windex2endpoint, h8, h4]
    split_ifs <;> simp_all
  · intro e he
    simp only [windex2endpoint, h8, h4] at he
    split_ifs at he with h1 h2 h3
    · cases he
      exact ⟨h15, by simp [h2], by simp [h2]⟩
    · cases he
      exact ⟨h15, by simp [h3], by simp [h3]⟩

/-- Witness for C4 at the concrete index 0x0080. -/
theorem C4_witness :
    windex2endpoint 128 ≠ .error () ∧ (⟨.In, 0⟩ : Endpoint).number = 128 % 16 :=
  ⟨(C4_endpoint_index.1 128 (by decide)).1.mpr (by decide),
   ((C4_endpoint_index.1 128 (by decide)).2 ⟨.In, 0⟩ (by decide)).1⟩

/-- Claim C1 (amended): for a 5-tuple whose decoded `bmRequestType` kind
is `Standard` and which the standard grammar rejects, `Request::parse`
falls back to the HID class grammar only — the ACM grammar is not
attempted — and returns the HID grammar's result; in particular
`parse(129, 6, 8704, 2, 64)` returns
`Ok(Hid(GetDescriptor{length: 64, descriptor: Report{index: 0}}))` with
interface 2. -/
theorem C1_standard_fallback_hid_only :
    (∀ b brequest wvalue windex wlength t,
      bmRequestType.parse b = .ok t → t.ty = .Standard →
      StandardRequest.parse2 t brequest wvalue windex wlength = .error () →
      Request.parse b brequest wvalue windex wlength =
        (hid.Request.parse2 t brequest wvalue windex wlength).map Request.Hid) ∧
    Request.parse 129 6 8704 2 64 =
      .ok (.Hid ⟨2, .GetDescriptor 64 (.Report 0)⟩) := by
  constructor
  · intro b br wv wi wl t hparse hty hstd
    unfold Request.parse
    rw [hparse]
    simp only [hty, hstd]
  · decide

/-- Witness for C1 at a concrete tuple the standard grammar rejects. -/
theorem C1_witness :
    Request.parse 1 34 0 0 0 =
      (hid.Request.parse2 ⟨.HostToDevice, .Standard, .Interface⟩ 34 0 0 0).map
        Request.Hid :=
  C1_standard_fallback_hid_only.1 1 34 0 0 0 ⟨.HostToDevice, .Standard, .Interface⟩
    (by decide) rfl (by decide)

/-- Counterexample to claim C1 as stated: for the tuple
`(bmRequestType = 1, bRequest = 0x22, wValue = 0, wIndex = 0,
wLength = 0)` the decoded kind is `Standard`, the standard grammar
rejects, and the ACM grammar accepts the same decoded fields
(SET_CONTROL_LINE_STATE), yet `Request::parse` rejects — so the
dispatcher does not attempt "each registered class grammar (ACM and
HID)" and does not reject "only if all grammars fail". -/
theorem C1_counterexample :
    bmRequestType.parse 1 = .ok ⟨.HostToDevice, .Standard, .Interface⟩ ∧
    StandardRequest.parse2 ⟨.HostToDevice, .Standard, .Interface⟩ 34 0 0 0 =
      .error () ∧
    acm.Request.parse2 ⟨.HostToDevice, .Standard, .Interface⟩ 34 0 0 0 =
      .ok ⟨0, .SetControlLineState false false⟩ ∧
    hid.Request.parse2 ⟨.HostToDevice, .Standard, .Interface⟩ 34 0 0 0 =
      .error () ∧
    Request.parse 1 34 0 0 0 = .error () :=
  ⟨by decide, by decide, by decide, by decide, by decide⟩

/-- Claim C2: whenever the standard grammar returns a `StandardRequest`,
that request comes from the rule keyed by the input's
`(bRequest, direction)` pair — a partial match of one rule never falls
through to produce a different rule's result — and for a
`(bRequest, direction)` pair that keys no rule the parse is rejected. -/
theorem C2_no_cross_rule :
    (∀ (t : bmRequestType) (brequest wvalue windex wlength : Nat)
        (r : StandardRequest),
      StandardRequest.parse2 t brequest wvalue windex wlength = .ok r →
      r.ruleKey = (brequest, t.direction)) ∧
    (∀ (t : bmRequestType) (brequest wvalue windex wlength : Nat),
      (∀ r : StandardRequest, r.ruleKey ≠ (brequest, t.direction)) →
      StandardRequest.parse2 t brequest wvalue windex wlength = .error ()) := by
  have main : ∀ (t : bmRequestType) (brequest wvalue windex wlength : Nat)
      (r : StandardRequest),
      StandardRequest.parse2 t brequest wvalue windex wlength = .ok r →
      r.ruleKey = (brequest, t.direction) := by
    intro t br wv wi wl r h
    unfold StandardRequest.parse2 at h
    dsimp only at h
    by_cases h1 : br = CLEAR_FEATURE ∧ t.direction = .HostToDevice ∧
        t.recipient ≠ .Other ∧ wl = 0
    · rw [if_pos h1] at h
      split_ifs at h with ha hb
      · cases h
        simp [StandardRequest.ruleKey, h1.1, h1.2.1]
      · obtain ⟨e, he, rfl⟩ := exceptMap_ok h
        simp [StandardRequest.ruleKey, h1.1, h1.2.1]
    rw [if_neg h1] at h
    by_cases h2 : br = GET_CONFIGURATION ∧ t.direction = .DeviceToHost ∧
        t.recipient = .Device ∧ wv = 0 ∧ wi = 0 ∧ wl = 1
    · rw [if_pos h2] at h
      cases h
      simp [StandardRequest.ruleKey, h2.1, h2.2.1]
    rw [if_neg h2] at h
    by_cases h3 : br = GET_DESCRIPTOR ∧ t.direction = .DeviceToHost ∧
        t.recipient = .Device
    · rw [if_pos h3] at h
      cases hty : desc.Ty._from ((wv >>> 8) % 256) with
      | none => rw [hty] at h; exact absurd h (by simp)
      | some ty =>
        rw [hty] at h
        dsimp only at h
        split_ifs at h with ha hb hc hd he2 <;>
          (cases h; simp [StandardRequest.ruleKey, h3.1, h3.2.1])
    rw [if_neg h3] at h
    by_cases h4 : br = GET_INTERFACE ∧ t.direction = .DeviceToHost ∧
        t.recipient = .Interface ∧ wv = 0 ∧ wl = 1
    · rw [if_pos h4] at h
      obtain ⟨i, hi, rfl⟩ := exceptMap_ok h
      simp [StandardRequest.ruleKey, h4.1, h4.2.1]
    rw [if_neg h4] at h
    by_cases h5 : br = GET_STATUS ∧ t.direction = .DeviceToHost ∧ wv = 0 ∧ wl = 2
    · rw [if_pos h5] at h
      split_ifs at h with ha hb hc
      · cases h
        simp [StandardRequest.ruleKey, h5.1, h5.2.1]
      · obtain ⟨e, he, rfl⟩ := exceptMap_ok h
        simp [StandardRequest.ruleKey, h5.1, h5.2.1]
      · obtain ⟨i, hi, rfl⟩ := exceptMap_ok h
        simp [StandardRequest.ruleKey, h5.1, h5.2.1]
    rw [if_neg h5] at h
    by_cases h6 : br = SET_ADDRESS ∧ t.direction = .HostToDevice ∧
        t.recipient = .Device ∧ wi = 0 ∧ wl = 0 ∧ wv ≤ MAX_ADDRESS
    · rw [if_pos h6] at h
      cases h
      simp [StandardRequest.ruleKey, h6.1, h6.2.1]
    rw [if_neg h6] at h
    by_cases h7 : br = SET_CONFIGURATION ∧ t.direction = .HostToDevice ∧
        t.recipient = .Device ∧ wi = 0 ∧ wl = 0 ∧ wv >>> 8 = 0
    · rw [if_pos h7] at h
      cases h
      simp [StandardRequest.ruleKey, h7.1, h7.2.1]
    rw [if_neg h7] at h
    by_cases h8 : br = SET_DESCRIPTOR ∧ t.direction = .HostToDevice ∧
        t.recipient = .Device
    · rw [if_pos h8] at h
      cases hty : desc.Ty._from ((wv >>> 8) % 256) with
      | none => rw [hty] at h; exact absurd h (by simp)
      | some ty =>
        rw [hty] at h
        dsimp only at h
        split_ifs at h with ha hb hc <;>
          (cases h; simp [StandardRequest.ruleKey, h8.1, h8.2.1])
    rw [if_neg h8] at h
    by_cases h9 : br = SET_FEATURE ∧ t.direction = .HostToDevice ∧ wl = 0
    · rw [if_pos h9] at h
      split_ifs at h with ha hb hc
      · cases h
        simp [StandardRequest.ruleKey, h9.1, h9.2.1]
      · cases hti : Test._from ((wi >>> 8) % 256) with
        | none => rw [hti] at h; exact absurd h (by simp)
        | some test =>
          rw [hti] at h
          dsimp only at h
          cases h
          simp [StandardRequest.ruleKey, h9.1, h9.2.1]
      · obtain ⟨e, he, rfl⟩ := exceptMap_ok h
        simp [StandardRequest.ruleKey, h9.1, h9.2.1]
    rw [if_neg h9] at h
    by_cases h10 : br = SET_INTERFACE ∧ t.direction = .HostToDevice ∧
        t.recipient = .Interface ∧ wl = 0
    · rw [if_pos h10] at h
      cases hii : windex2interface wi with
      | error e => rw [hii] at h; exact absurd h (by simp)
      | ok i =>
        rw [hii] at h
        dsimp only at h
        cases hia : windex2interface wv with
        | error e => rw [hia] at h; exact absurd h (by simp)
        | ok a =>
          rw [hia] at h
          dsimp only at h
          cases h
          simp [StandardRequest.ruleKey, h10.1, h10.2.1]
    rw [if_neg h10] at h
    by_cases h11 : br = SYNCH_FRAME ∧ t.direction = .DeviceToHost ∧
        t.recipient = .Endpoint ∧ wv = 0 ∧ wl = 2
    · rw [if_pos h11] at h
      obtain ⟨e, he, rfl⟩ := exceptMap_ok h
      simp [StandardRequest.ruleKey, h11.1, h11.2.1]
    rw [if_neg h11] at h
    exact absurd h (by simp)
  refine ⟨main, ?_⟩
  intro t br wv wi wl hkey
  cases hp : StandardRequest.parse2 t br wv wi wl with
  | error e => cases e; rfl
  | ok r => exact absurd (main t br wv wi wl r hp) (hkey r)

/-- Witness for C2 at the concrete SET_ADDRESS request. -/
theorem C2_witness :
    StandardRequest.ruleKey (.SetAddress (some 16)) =
      (SET_ADDRESS, bmrequesttype.Direction.HostToDevice) :=
  C2_no_cross_rule.1 ⟨.HostToDevice, .Standard, .Device⟩ SET_ADDRESS 16 0 0
    (.SetAddress (some 16)) (by decide)

/-- Claim C5: with bRequest 0x05 and direction HostToDevice, the standard
grammar accepts iff the recipient is Device, `wIndex = 0`, `wLength = 0`
and `wValue ≤ 127`; on success `wValue = 0` yields `SetAddress None` and
`wValue ∈ 1..=127` yields `SetAddress (Some wValue)`; concretely
`parse(0, 0x05, 0x0010, 0, 0) = Ok(Standard(SetAddress(Some 16)))` while
the same call with `wIndex = 1033` or with `wLength = 1` fails. -/
theorem C5_set_address :
    (∀ (t : bmRequestType) (wvalue windex wlength : Nat),
      t.direction = .HostToDevice → wvalue < 65536 →
      ((StandardRequest.parse2 t SET_ADDRESS wvalue windex wlength ≠ .error ()) ↔
        (t.recipient = .Device ∧ windex = 0 ∧ wlength = 0 ∧ wvalue ≤ 127)) ∧
      (t.recipient = .Device → windex = 0 → wlength = 0 → wvalue ≤ 127 →
        StandardRequest.parse2 t SET_ADDRESS wvalue windex wlength =
          .ok (.SetAddress (if wvalue = 0 then none else some wvalue)))) ∧
    Request.parse 0 0x05 0x0010 0 0 = .ok (.Standard (.SetAddress (some 16))) ∧
    Request.parse 0 0x05 0x0010 1033 0 = .error () ∧
    Request.parse 0 0x05 0x0010 0 1 = .error () := by
  refine ⟨?_, by decide, by decide, by decide⟩
  intro t wv wi wl hdir hwv
  have hred : StandardRequest.parse2 t SET_ADDRESS wv wi wl =
      if t.recipient = .Device ∧ wi = 0 ∧ wl = 0 ∧ wv ≤ MAX_ADDRESS then
        .ok (.SetAddress (NonZeroU8.new (wv % 256)))
      else .error () := by
    unfold StandardRequest.parse2
    dsimp only
    rw [if_neg (fun hc => absurd hc.1 (by decide)),
        if_neg (fun hc => absurd hc.1 (by decide)),
        if_neg (fun hc => absurd hc.1 (by decide)),
        if_neg (fun hc => absurd hc.1 (by decide)),
        if_neg (fun hc => absurd hc.1 (by decide))]
    by_cases hc : t.recipient = .Device ∧ wi = 0 ∧ wl = 0 ∧ wv ≤ MAX_ADDRESS
    · rw [if_pos ⟨rfl, hdir, hc.1, hc.2.1, hc.2.2.1, hc.2.2.2⟩, if_pos hc]
    · rw [if_neg (fun hfull =>
            hc ⟨hfull.2.2.1, hfull.2.2.2.1, hfull.2.2.2.2.1, hfull.2.2.2.2.2⟩),
          if_neg hc,
          if_neg (fun hcc => absurd hcc.1 (by decide)),
          if_neg (fun hcc => absurd hcc.1 (by decide)),
          if_neg (fun hcc => absurd hcc.1 (by decide)),
          if_neg (fun hcc => absurd hcc.1 (by decide)),
          if_neg (fun hcc => absurd hcc.1 (by decide))]
  constructor
  · rw [hred]
    constructor
    · intro hne
      by_contra hc
      rw [if_neg (by simpa [MAX_ADDRESS] using hc)] at hne
      exact hne rfl
    · intro hc
      rw [if_pos (by simpa [MAX_ADDRESS] using hc)]
      simp
  · intro hrec hwi hwl hle
    rw [hred, if_pos ⟨hrec, hwi, hwl, by simpa [MAX_ADDRESS] using hle⟩]
    have : wv % 256 = wv := Nat.mod_eq_of_lt (by omega)
    rw [this]
    simp [NonZeroU8.new]

/-- Witness for C5 at the concrete SET_ADDRESS 16 request. -/
theorem C5_witness :
    StandardRequest.parse2 ⟨.HostToDevice, .Standard, .Device⟩ SET_ADDRESS 16 0 0 =
      .ok (.SetAddress (some 16)) := by
  have h := (C5_set_address.1 ⟨.HostToDevice, .Standard, .Device⟩ 16 0 0 rfl
    (by decide)).2 rfl rfl rfl (by decide)
  simpa using h

/-- Claim C6: a standard GET_DESCRIPTOR request (bRequest 0x06, direction
DeviceToHost) succeeds only with recipient Device; given recipient
Device, its result is governed by the descriptor type in the high byte of
`wValue` and the index in the low byte: Device and DeviceQualifier require
index 0 and `wIndex = 0`, Configuration and OtherSpeedConfiguration
require `wIndex = 0` (any index), String allows any index and carries
`wIndex` as the language id, and every other descriptor type (Interface,
Endpoint, InterfacePower or an unrecognized code) is rejected. -/
theorem C6_get_descriptor :
    ∀ (t : bmRequestType) (wvalue windex wlength : Nat),
      t.direction = .DeviceToHost → wvalue < 65536 →
      ((StandardRequest.parse2 t GET_DESCRIPTOR wvalue windex wlength ≠ .error ()) →
        t.recipient = .Device) ∧
      (t.recipient = .Device →
        StandardRequest.parse2 t GET_DESCRIPTOR wvalue windex wlength =
          if wvalue / 256 = 1 ∧ wvalue % 256 = 0 ∧ windex = 0 then
            .ok (.GetDescriptor .Device wlength)
          else if wvalue / 256 = 6 ∧ wvalue % 256 = 0 ∧ windex = 0 then
            .ok (.GetDescriptor .DeviceQualifier wlength)
          else if wvalue / 256 = 2 ∧ windex = 0 then
            .ok (.GetDescriptor (.Configuration (wvalue % 256)) wlength)
          else if wvalue / 256 = 7 ∧ windex = 0 then
            .ok (.GetDescriptor (.OtherSpeedConfiguration (wvalue % 256)) wlength)
          else if wvalue / 256 = 3 then
            .ok (.GetDescriptor (.String (wvalue % 256) windex) wlength)
          else .error ()) := by
  intro t wv wi wl hdir hwv
  have hv8 : (wv >>> 8) % 256 = wv / 256 := by
    have h := Nat.shiftRight_eq_div_pow wv 8
    norm_num at h
    rw [h, Nat.mod_eq_of_lt (by omega)]
  have hred : ∀ hrec : t.recipient = .Device,
      StandardRequest.parse2 t GET_DESCRIPTOR wv wi wl =
        match desc.Ty._from (wv / 256) with
        | none => .error ()
        | some ty =>
          if ty = .Device ∧ wv % 256 = 0 ∧ wi = 0 then
            .ok (.GetDescriptor .Device wl)
          else if ty = .DeviceQualifier ∧ wv % 256 = 0 ∧ wi = 0 then
            .ok (.GetDescriptor .DeviceQualifier wl)
          else if ty = .Configuration ∧ wi = 0 then
            .ok (.GetDescriptor (.Configuration (wv % 256)) wl)
          else if ty = .OtherSpeedConfiguration ∧ wi = 0 then
            .ok (.GetDescriptor (.OtherSpeedConfiguration (wv % 256)) wl)
          else if ty = .String then
            .ok (.GetDescriptor (.String (wv % 256) wi) wl)
          else .error () := by
    intro hrec
    unfold StandardRequest.parse2
    dsimp only
    rw [if_neg (fun hc => absurd hc.1 (by decide)),
        if_neg (fun hc => absurd hc.1 (by decide)),
        if_pos ⟨rfl, hdir, hrec⟩, hv8]
  have herr : t.recipient ≠ .Device →
      StandardRequest.parse2 t GET_DESCRIPTOR wv wi wl = .error () := by
    intro hrec
    unfold StandardRequest.parse2
    dsimp only
    rw [if_neg (fun hc => absurd hc.1 (by decide)),
        if_neg (fun hc => absurd hc.1 (by decide)),
        if_neg (fun hc => hrec hc.2.2),
        if_neg (fun hc => absurd hc.1 (by decide)),
        if_neg (fun hc => absurd hc.1 (by decide)),
        if_neg (fun hc => absurd hc.1 (by decide)),
        if_neg (fun hc => absurd hc.1 (by decide)),
        if_neg (fun hc => absurd hc.1 (by decide)),
        if_neg (fun hc => absurd hc.1 (by decide)),
        if_neg (fun hc => absurd hc.1 (by decide)),
        if_neg (fun hc => absurd hc.1 (by decide))]
  constructor
  · intro hne
    by_contra hrec
    exact hne (herr hrec)
  · intro hrec
    rw [hred hrec]
    have hcase : wv / 256 = 0 ∨ wv / 256 = 1 ∨ wv / 256 = 2 ∨ wv / 256 = 3 ∨
        wv / 256 = 4 ∨ wv / 256 = 5 ∨ wv / 256 = 6 ∨ wv / 256 = 7 ∨
        wv / 256 = 8 ∨ 9 ≤ wv / 256 := by omega
    rcases hcase with h | h | h | h | h | h | h | h | h | h
    · simp [h, desc.Ty._from]
    · simp [h, desc.Ty._from]
    · simp [h, desc.Ty._from]
    · simp [h, desc.Ty._from]
    · simp [h, desc.Ty._from]
    · simp [h, desc.Ty._from]
    · simp [h, desc.Ty._from]
    · simp [h, desc.Ty._from]
    · simp [h, desc.Ty._from]
    · have c1 : wv / 256 ≠ 1 := by omega
      have c2 : wv / 256 ≠ 2 := by omega
      have c3 : wv / 256 ≠ 3 := by omega
      have c4 : wv / 256 ≠ 4 := by omega
      have c5 : wv / 256 ≠ 5 := by omega
      have c6 : wv / 256 ≠ 6 := by omega
      have c7 : wv / 256 ≠ 7 := by omega
      have c8 : wv / 256 ≠ 8 := by omega
      simp [desc.Ty._from, c1, c2, c3, c4, c5, c6, c7, c8]

/-- Witness for C6 at the concrete GET_DESCRIPTOR Device request. -/
theorem C6_witness :
    StandardRequest.parse2 ⟨.DeviceToHost, .Standard, .Device⟩ GET_DESCRIPTOR
      0x0100 0 18 = .ok (.GetDescriptor .Device 18) := by
  have h := (C6_get_descriptor ⟨.DeviceToHost, .Standard, .Device⟩ 0x0100 0 18
    rfl (by decide)).2 rfl
  simpa using h

/-- For a value below `2^16`, ANDing with the `u16` complement of `0b11`
(`0xFFFC`) yields 0 exactly when the value is below 4, i.e. when every
bit above bit 1 is clear. -/
theorem and_fffc_eq_zero_iff {w : Nat} (hw : w < 65536) :
    w &&& 65532 = 0 ↔ w < 4 := by
  constructor
  · intro h
    have hd : (w &&& 65532) / 2 / 2 = w / 2 / 2 &&& 16383 := by
      rw [Nat.and_div_two, Nat.and_div_two]
    rw [h] at hd
    have h14 : w / 2 / 2 &&& 16383 = w / 2 / 2 := by
      have h2 := Nat.and_pow_two_sub_one_eq_mod (w / 2 / 2) 14
      norm_num at h2
      rw [h2, Nat.mod_eq_of_lt (by omega)]
    omega
  · intro h
    interval_cases w <;> decide

/-- Claim C7: an ACM SET_CONTROL_LINE_STATE request (bRequest 0x22,
direction HostToDevice, recipient Interface, `wLength = 0`) parses
successfully iff every bit of `wValue` above bit 1 is zero (equivalently
`wValue < 4`) and the high byte of `wIndex` is zero; a set reserved bit is
a hard rejection; on success `dtr` is bit 0 of `wValue` and `rts` is
bit 1. -/
theorem C7_set_control_line_state :
    ∀ (t : bmRequestType) (wvalue windex : Nat),
      t.direction = .HostToDevice → t.recipient = .Interface →
      wvalue < 65536 →
      ((acm.Request.parse2 t acm.SET_CONTROL_LINE_STATE wvalue windex 0 ≠
          .error ()) ↔ (windex < 256 ∧ wvalue < 4)) ∧
      ((wvalue < 4) ↔ (∀ i, 2 ≤ i → wvalue.testBit i = false)) ∧
      (windex < 256 → wvalue < 4 →
        acm.Request.parse2 t acm.SET_CONTROL_LINE_STATE wvalue windex 0 =
          .ok ⟨windex, .SetControlLineState (wvalue.testBit 0)
            (wvalue.testBit 1)⟩) := by
  intro t wv wi hdir hrec hwv
  have hwin : wi < 256 → windex2interface wi = .ok wi := by
    intro h
    unfold windex2interface
    rw [if_neg (by simp [Nat.shiftRight_eq_div_pow]; omega),
        Nat.mod_eq_of_lt h]
  have hwin2 : ¬wi < 256 → windex2interface wi = .error () := by
    intro h
    unfold windex2interface
    rw [if_pos (by simp [Nat.shiftRight_eq_div_pow]; omega)]
  have hbase : acm.Request.parse2 t acm.SET_CONTROL_LINE_STATE wv wi 0 =
      match windex2interface wi with
      | .error _ => .error ()
      | .ok interface =>
        if wv &&& 65532 ≠ 0 then .error ()
        else .ok ⟨interface, .SetControlLineState (decide (wv &&& 1 ≠ 0))
          (decide (wv &&& 2 ≠ 0))⟩ := by
    unfold acm.Request.parse2
    dsimp only
    rw [if_neg (fun hc => absurd hc.1 (by decide)),
        if_neg (fun hc => absurd hc.1 (by decide)),
        if_pos ⟨rfl, hdir, hrec, rfl⟩]
  have hred1 : wi < 256 →
      acm.Request.parse2 t acm.SET_CONTROL_LINE_STATE wv wi 0 =
        if wv &&& 65532 ≠ 0 then .error ()
        else .ok ⟨wi, .SetControlLineState (decide (wv &&& 1 ≠ 0))
          (decide (wv &&& 2 ≠ 0))⟩ := by
    intro hi
    rw [hbase, hwin hi]
  have hred2 : ¬wi < 256 →
      acm.Request.parse2 t acm.SET_CONTROL_LINE_STATE wv wi 0 = .error () := by
    intro hi
    rw [hbase, hwin2 hi]
  refine ⟨?_, ?_, ?_⟩
  · constructor
    · intro hne
      by_cases hi : wi < 256
      · rw [hred1 hi] at hne
        refine ⟨hi, ?_⟩
        by_cases hm : wv &&& 65532 ≠ 0
        · rw [if_pos hm] at hne
          exact absurd rfl hne
        · exact (and_fffc_eq_zero_iff hwv).mp (by omega)
      · rw [hred2 hi] at hne
        exact absurd rfl hne
    · rintro ⟨hi, hv⟩
      rw [hred1 hi, if_neg (by simp [(and_fffc_eq_zero_iff hwv).mpr hv])]
      simp
  · constructor
    · intro h i hi
      exact Nat.testBit_lt_two_pow (lt_of_lt_of_le h (by
        calc (4 : Nat) = 2 ^ 2 := by norm_num
        _ ≤ 2 ^ i := Nat.pow_le_pow_right (by norm_num) hi))
    · intro h
      have h2 := Nat.lt_pow_two_of_testBit wv (fun i hi => h i hi)
      simpa using h2
  · intro hi hv
    rw [hred1 hi, if_neg (by simp [(and_fffc_eq_zero_iff hwv).mpr hv])]
    interval_cases wv <;> rfl

/-- Witness for C7 at the concrete request with `wValue = 3`. -/
theorem C7_witness :
    acm.Request.parse2 ⟨.HostToDevice, .Standard, .Interface⟩
      acm.SET_CONTROL_LINE_STATE 3 2 0 =
      .ok ⟨2, .SetControlLineState true true⟩ := by
  have h := (C7_set_control_line_state ⟨.HostToDevice, .Standard, .Interface⟩
    3 2 rfl rfl (by decide)).2.2 (by decide) (by decide)
  simpa using h

/-- Claim C8: every HID SET_IDLE request satisfying the guards
(bRequest 10, recipient Interface, direction HostToDevice,
`wLength = 0`, high byte of `wIndex` zero) parses successfully — in
particular `wValue = 0` is accepted — and the parsed `report_id` is
`None` exactly when the low byte of `wValue` is 0 (`Some` of that byte
otherwise) while the parsed `duration` is `None` exactly when the high
byte of `wValue` is 0 (`Some` of that byte otherwise). -/
theorem C8_set_idle :
    ∀ (t : bmRequestType) (wvalue windex : Nat),
      t.direction = .HostToDevice → t.recipient = .Interface →
      windex < 256 → wvalue < 65536 →
      hid.Request.parse2 t hid.SET_IDLE wvalue windex 0 =
        .ok ⟨windex,
          .SetIdle (if wvalue / 256 = 0 then none else some (wvalue / 256))
            (if wvalue % 256 = 0 then none else some (wvalue % 256))⟩ := by
  intro t wv wi hdir hrec hwi hwv
  have hv8 : (wv >>> 8) % 256 = wv / 256 := by
    have h := Nat.shiftRight_eq_div_pow wv 8
    norm_num at h
    rw [h, Nat.mod_eq_of_lt (by omega)]
  have hwin : windex2interface wi = .ok wi := by
    unfold windex2interface
    rw [if_neg (by simp [Nat.shiftRight_eq_div_pow]; omega),
        Nat.mod_eq_of_lt hwi]
  unfold hid.Request.parse2
  dsimp only
  rw [if_pos ⟨rfl, hrec, hdir, rfl⟩, hv8, hwin]
  simp [NonZeroU8.new, Except.map]

/-- Witness for C8 at the concrete request with `wValue = 0x020A`. -/
theorem C8_witness :
    hid.Request.parse2 ⟨.HostToDevice, .Standard, .Interface⟩ hid.SET_IDLE
      0x020A 1 0 = .ok ⟨1, .SetIdle (some 2) (some 10)⟩ := by
  have h := C8_set_idle ⟨.HostToDevice, .Standard, .Interface⟩ 0x020A 1
    rfl rfl (by decide) (by decide)
  simpa using h

end Usb2
